import Mathlib

/-!
Verification development for the `ltai-news` channel-sync core.

Shallow embedding of `src/app/services/channel_tracker.py` (the sync
orchestrator / resolver glue) and `src/app/client/google_oauth.py` (the
concrete YouTube client), over the data model of §3 of the spec
(`app/models/channel.py` and `app/models/video.py` are not part of the
source tree, so the plain record shapes are modelled from the spec).

Modelling conventions:
* Python exceptions are values `Exn` carrying the exception class name and
  the message; `str(e)` is `Exn.msg`.  Fallible code returns `Except Exn`.
* `datetime` instants are integers counting seconds (naive UTC), so
  `timedelta(hours=h)` is `h * 3600` and "one second earlier" is `- 1`.
  `datetime.utcnow()` is modelled as a fixed instant `now` passed in: no
  claim distinguishes two clock readings inside one sync.
* Timestamp strings are modelled by their parse outcome `TS`:
  `TS.valid t` is a string that `datetime.fromisoformat` (after the
  `Z → +00:00` normalisation done by the source) parses to the instant `t`,
  and `TS.invalid s` is a string it rejects with `ValueError`.
* The external client of §6 is a record of functions `ClientB`; the
  concrete `GoogleOAuthClient` additionally sits on top of a record of raw
  YouTube API calls `YTApi`.
* The process-wide settings singleton is modelled as an explicit `Settings`
  value (spec §9 design note).
-/

namespace LtaiNews

/-- A Python exception value: class name (e.g. "ValueError", "TypeError")
and message. `str(e)` yields the message, which may be the empty string. -/
structure Exn where
  ty : String
  msg : String
deriving DecidableEq, Repr

/-- A timestamp string, represented by its parse outcome: `valid t` parses
to instant `t` (seconds), `invalid s` raises `ValueError` when parsed by
`datetime.fromisoformat`. -/
inductive TS where
  | valid (t : Int)
  | invalid (s : String)
deriving DecidableEq, Repr

/-- `datetime.fromisoformat` applied to a (normalised) timestamp string, as
in `google_oauth.py` line 250: raises `ValueError` on an unparseable
string. -/
def fromisoformat : TS → Except Exn Int
  | .valid t => .ok t
  | .invalid s => .error ⟨"ValueError", "Invalid isoformat string: " ++ s⟩

/-- Configuration consumed by the tracker (spec §6): the tracked channel
names and the lookback window in hours. -/
structure Settings where
  tracked_channels : List String
  content_lookback_hours : Nat
deriving DecidableEq, Repr

/-- Result of `search_channel` (§6): the matched channel id and title. -/
structure SearchResult where
  id : String
  title : String
deriving DecidableEq, Repr

/-- The channel-metadata mapping returned by `get_channel_metadata` (§6).
`channel_tracker.py` indexes `metadata["id"]` and `metadata["title"]`
directly (required keys) and reads every other field with `.get`, so those
are optional. -/
structure Metadata where
  id : String
  title : String
  description : Option String := none
  published_at : Option TS := none
  thumbnail : Option String := none
  custom_url : Option String := none
  subscriber_count : Option Nat := none
  video_count : Option Nat := none
  view_count : Option Nat := none
  uploads_playlist_id : Option String := none
deriving DecidableEq, Repr

/-- A video-metadata mapping as returned by
`get_recent_videos_with_metadata` (§6). `channel_tracker.py` indexes
`id`, `channel_id`, `title`, `published_at` and `url` directly and uses
`.get` for the rest; the `published_at` value itself may be `None`. -/
structure VideoData where
  id : String
  channel_id : String
  title : String
  description : Option String := none
  published_at : Option TS := none
  view_count : Option Nat := none
  like_count : Option Nat := none
  comment_count : Option Nat := none
  duration : Option String := none
  thumbnail : Option String := none
  url : String
  channel_title : Option String := none
deriving DecidableEq, Repr

/-- Modelled from the spec: `app/models/channel.py` is not under `src/`.
Channel record per §3 — identity plus optional descriptive/statistical
snapshot; `id = ""` is the unresolved sentinel. -/
structure Channel where
  id : String
  name : String
  handle : Option String := none
  custom_url : Option String := none
  description : Option String := none
  thumbnail_url : Option String := none
  published_at : Option Int := none
  subscriber_count : Option Nat := none
  video_count : Option Nat := none
  view_count : Option Nat := none
  uploads_playlist_id : Option String := none
  last_synced_at : Option Int := none
  is_active : Bool := true
  raw_metadata : Option Metadata := none
deriving DecidableEq, Repr

/-- Modelled from the spec: processing-status enumeration of
`app/models/video.py` (§3); this core only produces `collected`. -/
inductive VideoProcessingStatus where
  | collected
deriving DecidableEq, Repr

/-- Modelled from the spec: `app/models/video.py` is not under `src/`.
Video record per §3. -/
structure Video where
  id : String
  channel_id : String
  title : String
  description : Option String := none
  published_at : Option Int := none
  view_count : Option Nat := none
  like_count : Option Nat := none
  comment_count : Option Nat := none
  duration : Option String := none
  thumbnail_url : Option String := none
  url : String
  status : VideoProcessingStatus := .collected
  collected_at : Int
  raw_metadata : Option VideoData := none
deriving DecidableEq, Repr

/-- Modelled from the spec: outcome of syncing one channel (§3). -/
structure ChannelSyncResult where
  channel : Channel
  videos_collected : List Video
  videos_count : Nat
  sync_started_at : Int
  sync_completed_at : Int
  error : Option String := none
deriving DecidableEq, Repr

/-- Modelled from the spec: outcome of a full batch sync (§3). -/
structure ChannelTrackerResult where
  channels_processed : Nat
  channels_found : Nat
  channels_not_found : List String
  total_videos_collected : Nat
  lookback_hours : Nat
  sync_results : List ChannelSyncResult
  started_at : Int
  completed_at : Int
deriving DecidableEq, Repr

/-- The external video-platform client capability set of §6, as consumed
by `ChannelTracker`.  Each call may raise (`Except.error`). -/
structure ClientB where
  search_channel : String → Except Exn (Option SearchResult)
  get_channel_metadata : String → Except Exn (Option Metadata)
  get_recent_videos_with_metadata : String → Nat → Except Exn (List VideoData)

/-- `ChannelTracker._parse_datetime` (channel_tracker.py 280–301): `None`
and falsy strings yield `None`; an unparseable string has its
`ValueError` caught and also yields `None`; a parseable string yields the
parsed instant.  (The `Z → +00:00` normalisation is absorbed into the
`TS` representation.) -/
def parseDatetime : Option TS → Option Int
  | none => none
  | some (.valid t) => some t
  | some (.invalid _) => none

/-- The `Exn` raised by Python when an f-string applies the `:,`
thousands-separator format to `None` (channel_tracker.py 99–102). -/
def typeErrorNoneFormat : Exn :=
  ⟨"TypeError", "unsupported format string passed to NoneType.__format__"⟩

/-- The Channel record assembled by `search_and_resolve_channel`
(channel_tracker.py 83–97) from a metadata mapping. -/
def resolvedChannelOf (now : Int) (m : Metadata) : Channel :=
  { id := m.id
    name := m.title
    handle := m.custom_url
    custom_url := m.custom_url
    description := m.description
    thumbnail_url := m.thumbnail
    published_at := parseDatetime m.published_at
    subscriber_count := m.subscriber_count
    video_count := m.video_count
    view_count := m.view_count
    uploads_playlist_id := m.uploads_playlist_id
    last_synced_at := some now
    is_active := true
    raw_metadata := some m }

/-- `ChannelTracker.search_and_resolve_channel` (channel_tracker.py
55–103): search, metadata fetch, Channel assembly, then the
`logger.info` f-string that formats `channel.subscriber_count` with `:,`
— which raises `TypeError` when that field is `None`. -/
def searchAndResolveChannel (c : ClientB) (now : Int) (name : String) :
    Except Exn (Option Channel) :=
  match c.search_channel name with
  | .error e => .error e
  | .ok none => .ok none
  | .ok (some sr) =>
    match c.get_channel_metadata sr.id with
    | .error e => .error e
    | .ok none => .ok none
    | .ok (some m) =>
      let channel : Channel := resolvedChannelOf now m
      match channel.subscriber_count with
      | none => .error typeErrorNoneFormat
      | some _ => .ok (some channel)

/-- Conversion of one metadata mapping into a Video record
(channel_tracker.py 131–148). -/
def buildVideo (now : Int) (vd : VideoData) : Video :=
  { id := vd.id
    channel_id := vd.channel_id
    title := vd.title
    description := vd.description
    published_at := parseDatetime vd.published_at
    view_count := vd.view_count
    like_count := vd.like_count
    comment_count := vd.comment_count
    duration := vd.duration
    thumbnail_url := vd.thumbnail
    url := vd.url
    status := .collected
    collected_at := now
    raw_metadata := some vd }

/-- `hours or self.settings.content_lookback_hours`
(channel_tracker.py 118): the settings value is read when `hours` is
`None` or `0` (Python falsiness). -/
def lookbackHours (s : Settings) (hours : Option Nat) : Nat :=
  match hours with
  | some h => if h == 0 then s.content_lookback_hours else h
  | none => s.content_lookback_hours

/-- `ChannelTracker.fetch_recent_videos` (channel_tracker.py 105–151). -/
def fetchRecentVideos (c : ClientB) (s : Settings) (now : Int)
    (hours : Option Nat) (channel_id : String) : Except Exn (List Video) :=
  match c.get_recent_videos_with_metadata channel_id (lookbackHours s hours) with
  | .error e => .error e
  | .ok vds => .ok (vds.map (buildVideo now))

/-- The sentinel Channel built on failure (channel_tracker.py 173–177 and
206–210). -/
def sentinelChannel (name : String) : Channel :=
  { id := "", name := name, is_active := false }

/-- The result returned when resolution comes back absent
(channel_tracker.py 169–183). -/
def notFoundSyncResult (now : Int) (name : String) : ChannelSyncResult :=
  { channel := sentinelChannel name
    videos_collected := []
    videos_count := 0
    sync_started_at := now
    sync_completed_at := now
    error := some ("Could not resolve channel: " ++ name) }

/-- The body of `ChannelTracker.sync_channel`'s `try` block
(channel_tracker.py 166–201): the not-found case returns a result, any
exception propagates. -/
def syncChannelTry (c : ClientB) (s : Settings) (now : Int) (name : String) :
    Except Exn ChannelSyncResult :=
  match searchAndResolveChannel c now name with
  | .error e => .error e
  | .ok none => .ok (notFoundSyncResult now name)
  | .ok (some channel) =>
    match fetchRecentVideos c s now none channel.id with
    | .error e => .error e
    | .ok videos =>
      .ok { channel := channel
            videos_collected := videos
            videos_count := videos.length
            sync_started_at := now
            sync_completed_at := now
            error := none }

/-- `ChannelTracker.sync_channel` (channel_tracker.py 153–216): the `try`
body with the `except Exception` boundary that converts any raised
exception into a sentinel result with `error = str(e)`. -/
def syncChannel (c : ClientB) (s : Settings) (now : Int) (name : String) :
    ChannelSyncResult :=
  match syncChannelTry c s now name with
  | .ok r => r
  | .error e =>
    { channel := sentinelChannel name
      videos_collected := []
      videos_count := 0
      sync_started_at := now
      sync_completed_at := now
      error := some e.msg }

/-- Python truthiness of the optional `result.error` string in
`if result.error or not result.channel.id:` (channel_tracker.py 252):
`None` and `""` are falsy. -/
def errTruthy : Option String → Bool
  | none => false
  | some e => !(e == "")

/-- The per-channel classification of the batch loop
(channel_tracker.py 252): a result counts as not-found when its error is
truthy or its channel id is the empty string. -/
def isNotFoundRes (r : ChannelSyncResult) : Bool :=
  errTruthy r.error || r.channel.id == ""

/-- Accumulator of the batch loop (channel_tracker.py 244–258). -/
structure SyncAcc where
  results : List ChannelSyncResult
  found : Nat
  not_found : List String
  total : Nat
deriving DecidableEq, Repr

/-- The `for channel_name in channel_names:` loop of `sync_all_channels`
(channel_tracker.py 249–258), processing names strictly in order. -/
def syncLoop (c : ClientB) (s : Settings) (now : Int) :
    List String → SyncAcc
  | [] => ⟨[], 0, [], 0⟩
  | name :: rest =>
    let r := syncChannel c s now name
    let acc := syncLoop c s now rest
    if isNotFoundRes r then
      ⟨r :: acc.results, acc.found, name :: acc.not_found, acc.total⟩
    else
      ⟨r :: acc.results, acc.found + 1, acc.not_found, acc.total + r.videos_count⟩

/-- `ChannelTracker.sync_all_channels` (channel_tracker.py 218–278),
including the early return on an empty configured channel list. -/
def syncAllChannels (c : ClientB) (s : Settings) (now : Int) :
    ChannelTrackerResult :=
  let channel_names := s.tracked_channels
  if channel_names.isEmpty then
    { channels_processed := 0
      channels_found := 0
      channels_not_found := []
      total_videos_collected := 0
      lookback_hours := s.content_lookback_hours
      sync_results := []
      started_at := now
      completed_at := now }
  else
    let acc := syncLoop c s now channel_names
    { channels_processed := channel_names.length
      channels_found := acc.found
      channels_not_found := acc.not_found
      total_videos_collected := acc.total
      lookback_hours := s.content_lookback_hours
      sync_results := acc.results
      started_at := now
      completed_at := now }

/-- `statistics` part of a YouTube channels().list response item, as read
with `.get(..., 0)` by `get_channel_metadata` (google_oauth.py 153–155):
each count may be absent.  Counts are the already-`int()`-converted
values. -/
structure ChannelStatistics where
  subscriberCount : Option Nat := none
  videoCount : Option Nat := none
  viewCount : Option Nat := none
deriving DecidableEq, Repr

/-- `snippet` part of a channels().list response item
(google_oauth.py 148–152).  `title` is taken as present; the other fields
are read with `.get` chains and may be absent.  `thumbHigh` stands for
`snippet.thumbnails.high.url`. -/
structure ChannelSnippetR where
  title : String
  description : Option String := none
  publishedAt : Option TS := none
  thumbHigh : Option String := none
  customUrl : Option String := none
deriving DecidableEq, Repr

/-- One channels().list response item.  `uploadsPlaylist` stands for
`contentDetails.relatedPlaylists.uploads`, read with a `.get` chain by
`get_channel_metadata` (absent allowed) but with direct indexing by
`get_recent_videos` (absent raises `KeyError`). -/
structure ChannelResource where
  id : String
  snippet : ChannelSnippetR
  statistics : ChannelStatistics := {}
  uploadsPlaylist : Option String := none
deriving DecidableEq, Repr

/-- One playlistItems().list response item (google_oauth.py 249–260):
`snippet.publishedAt`, `snippet.resourceId.videoId` and `snippet.title`
are all indexed directly. -/
structure PlaylistItem where
  publishedAt : TS
  videoId : String
  title : String
deriving DecidableEq, Repr

/-- One videos().list response item, with the fields
`get_video_metadata` reads (google_oauth.py 191–209).  `title` and
`channelId` are taken as present; statistics counts may be absent and are
read with `.get(..., 0)`. -/
structure VideoResource where
  id : String
  title : String
  description : Option String := none
  publishedAt : Option TS := none
  thumbHigh : Option String := none
  channelId : String
  channelTitle : Option String := none
  duration : Option String := none
  viewCount : Option Nat := none
  likeCount : Option Nat := none
  commentCount : Option Nat := none
deriving DecidableEq, Repr

/-- One search().list response item (google_oauth.py 108–110). -/
structure SearchItem where
  channelId : String
  title : String
deriving DecidableEq, Repr

/-- The raw YouTube API calls `GoogleOAuthClient` performs; each
`request.execute()` may raise.  A `none`/`[]` value models an empty
`items` array.  channels().list is issued with different `part`
arguments at two call sites but returns the same resource, so it is one
call here. -/
structure YTApi where
  search_list : String → Except Exn (Option SearchItem)
  channels_list : String → Except Exn (Option ChannelResource)
  playlist_items : String → Except Exn (List PlaylistItem)
  videos_list : String → Except Exn (Option VideoResource)

/-- `GoogleOAuthClient.search_channel` (google_oauth.py 90–114): no
try/except, so API exceptions propagate; an empty `items` array yields
`None`. -/
def searchChannel (api : YTApi) (channel_name : String) :
    Except Exn (Option SearchResult) :=
  match api.search_list channel_name with
  | .error e => .error e
  | .ok none => .ok none
  | .ok (some item) => .ok (some { id := item.channelId, title := item.title })

/-- The metadata dict `get_channel_metadata` builds from a channels().list
response item (google_oauth.py 146–159): statistics counts are read as
`int(statistics.get(..., 0))` — absent counts become `0` — while the
`.get`-read string fields stay absent. -/
def channelMetadataOf (ch : ChannelResource) : Metadata :=
  { id := ch.id
    title := ch.snippet.title
    description := ch.snippet.description
    published_at := ch.snippet.publishedAt
    thumbnail := ch.snippet.thumbHigh
    custom_url := ch.snippet.customUrl
    subscriber_count := some (ch.statistics.subscriberCount.getD 0)
    video_count := some (ch.statistics.videoCount.getD 0)
    view_count := some (ch.statistics.viewCount.getD 0)
    uploads_playlist_id := ch.uploadsPlaylist }

/-- `GoogleOAuthClient.get_channel_metadata` (google_oauth.py 116–164):
the whole body is wrapped in `try/except Exception: return None`. -/
def getChannelMetadata (api : YTApi) (channel_id : String) : Option Metadata :=
  match api.channels_list channel_id with
  | .error _ => none
  | .ok none => none
  | .ok (some ch) => some (channelMetadataOf ch)

/-- `GoogleOAuthClient.get_video_metadata` (google_oauth.py 166–214):
wrapped in `try/except Exception: return None`; statistics counts default
to `0` via `.get(..., 0)`. -/
def getVideoMetadata (api : YTApi) (video_id : String) : Option VideoData :=
  match api.videos_list video_id with
  | .error _ => none
  | .ok none => none
  | .ok (some v) =>
    some { id := v.id
           channel_id := v.channelId
           title := v.title
           description := v.description
           published_at := v.publishedAt
           view_count := some (v.viewCount.getD 0)
           like_count := some (v.likeCount.getD 0)
           comment_count := some (v.commentCount.getD 0)
           duration := v.duration
           thumbnail := v.thumbHigh
           url := "https://www.youtube.com/watch?v=" ++ v.id
           channel_title := v.channelTitle }

/-- One entry of `get_recent_videos`' result list
(google_oauth.py 254–260). -/
structure RecVideo where
  id : String
  title : String
  published_at : TS
deriving DecidableEq, Repr

/-- The filtering loop of `get_recent_videos` (google_oauth.py 249–260):
every item's `publishedAt` is parsed with `datetime.fromisoformat` — an
unparseable string raises `ValueError` out of the loop — and an item is
kept when its instant is at or after the cutoff (`>=`). -/
def filterRecent (published_after : Int) :
    List PlaylistItem → Except Exn (List RecVideo)
  | [] => .ok []
  | item :: rest =>
    match fromisoformat item.publishedAt with
    | .error e => .error e
    | .ok published_at =>
      match filterRecent published_after rest with
      | .error e => .error e
      | .ok tail =>
        .ok (if published_after ≤ published_at then
               { id := item.videoId
                 title := item.title
                 published_at := item.publishedAt } :: tail
             else tail)

/-- `GoogleOAuthClient.get_recent_videos` (google_oauth.py 216–263): no
try/except; `published_after = utcnow() − timedelta(hours=hours)`; the
uploads playlist id is indexed directly (`KeyError` if absent). -/
def getRecentVideos (api : YTApi) (now : Int) (channel_id : String)
    (hours : Nat) : Except Exn (List RecVideo) :=
  match api.channels_list channel_id with
  | .error e => .error e
  | .ok none => .ok []
  | .ok (some ch) =>
    match ch.uploadsPlaylist with
    | none => .error ⟨"KeyError", "uploads"⟩
    | some uploads_playlist_id =>
      match api.playlist_items uploads_playlist_id with
      | .error e => .error e
      | .ok items => filterRecent (now - (hours : Int) * 3600) items

/-- `GoogleOAuthClient.get_recent_videos_with_metadata`
(google_oauth.py 265–292): ids from `get_recent_videos`, early return on
no ids, then one `get_video_metadata` per id, keeping only the non-`None`
fetches. -/
def getRecentVideosWithMetadata (api : YTApi) (now : Int)
    (channel_id : String) (hours : Nat) : Except Exn (List VideoData) :=
  match getRecentVideos api now channel_id hours with
  | .error e => .error e
  | .ok recs =>
    let video_ids := recs.map (fun v => v.id)
    if video_ids.isEmpty then .ok []
    else .ok (video_ids.filterMap (getVideoMetadata api))

/-- The §6 client interface as implemented by `GoogleOAuthClient` on top
of the raw API calls (this is how `ChannelTracker` consumes it). -/
def clientOf (api : YTApi) (now : Int) : ClientB :=
  { search_channel := searchChannel api
    get_channel_metadata := fun cid => .ok (getChannelMetadata api cid)
    get_recent_videos_with_metadata := fun cid hours =>
      getRecentVideosWithMetadata api now cid hours }

/-- Classification of a channel name by the batch loop's test, applied to
the result of syncing it. -/
def isFoundName (c : ClientB) (s : Settings) (now : Int) (name : String) : Bool :=
  !(isNotFoundRes (syncChannel c s now name))

lemma syncChannel_characterisation (c : ClientB) (s : Settings) (now : Int)
    (name : String) :
    ((syncChannel c s now name).error ≠ none
      ∧ (syncChannel c s now name).channel = sentinelChannel name
      ∧ (syncChannel c s now name).videos_collected = []
      ∧ (syncChannel c s now name).videos_count = 0)
    ∨ ((syncChannel c s now name).error = none
      ∧ (syncChannel c s now name).videos_count
          = (syncChannel c s now name).videos_collected.length
      ∧ ∃ sr m, c.search_channel name = Except.ok (some sr)
          ∧ c.get_channel_metadata sr.id = Except.ok (some m)
          ∧ m.subscriber_count ≠ none
          ∧ (syncChannel c s now name).channel.id = m.id) := by
  unfold syncChannel syncChannelTry searchAndResolveChannel fetchRecentVideos
  cases hs : c.search_channel name with
  | error e => left; simp [hs, sentinelChannel]
  | ok osr =>
    cases osr with
    | none => left; simp [hs, notFoundSyncResult, sentinelChannel]
    | some sr =>
      cases hm : c.get_channel_metadata sr.id with
      | error e => left; simp [hs, hm, sentinelChannel]
      | ok om =>
        cases om with
        | none => left; simp [hs, hm, notFoundSyncResult, sentinelChannel]
        | some m =>
          cases hsub : m.subscriber_count with
          | none => left; simp [hs, hm, hsub, sentinelChannel, resolvedChannelOf]
          | some k =>
            cases hv : c.get_recent_videos_with_metadata m.id
                (lookbackHours s none) with
            | error e =>
              left
              simp [hs, hm, hsub, hv, sentinelChannel, resolvedChannelOf]
            | ok vds =>
              right
              refine ⟨by simp [hs, hm, hsub, hv, resolvedChannelOf],
                by simp [hs, hm, hsub, hv, resolvedChannelOf],
                sr, m, rfl, by simpa using hm, by simp [hsub],
                by simp [hs, hm, hsub, hv, resolvedChannelOf]⟩

lemma syncChannel_count (c : ClientB) (s : Settings) (now : Int) (name : String) :
    (syncChannel c s now name).videos_count
      = (syncChannel c s now name).videos_collected.length := by
  rcases syncChannel_characterisation c s now name with h | h
  · rw [h.2.2.1, h.2.2.2]; rfl
  · exact h.2.1

lemma syncLoop_spec (c : ClientB) (s : Settings) (now : Int)
    (names : List String) :
    syncLoop c s now names =
      { results := names.map (syncChannel c s now)
        found := (names.filter (fun n => isFoundName c s now n)).length
        not_found := names.filter (fun n => !(isFoundName c s now n))
        total := (((names.map (syncChannel c s now)).filter
                    (fun r => !(isNotFoundRes r))).map
                    (fun r => r.videos_count)).sum } := by
  induction names with
  | nil => rfl
  | cons name rest ih =>
    simp only [syncLoop, ih, List.map_cons, List.filter_cons, isFoundName]
    cases h : isNotFoundRes (syncChannel c s now name) <;>
      simp [h, Nat.add_comm]

lemma length_filter_split {α : Type} (p : α → Bool) (l : List α) :
    (l.filter p).length + (l.filter (fun a => !(p a))).length = l.length := by
  induction l with
  | nil => rfl
  | cons a l ih =>
    cases h : p a <;> simp [List.filter_cons, h] <;> omega

lemma sum_counts_filter_found (l : List ChannelSyncResult)
    (h : ∀ r ∈ l, isNotFoundRes r = true → r.videos_count = 0) :
    ((l.filter (fun r => !(isNotFoundRes r))).map
        (fun r => r.videos_count)).sum
      = (l.map (fun r => r.videos_count)).sum := by
  induction l with
  | nil => rfl
  | cons r l ih =>
    have hr := h r (List.mem_cons_self r l)
    have hl : ∀ x ∈ l, isNotFoundRes x = true → x.videos_count = 0 :=
      fun x hx => h x (List.mem_cons_of_mem r hx)
    cases hf : isNotFoundRes r with
    | false => simp [List.filter_cons, hf, ih hl]
    | true => simp [List.filter_cons, hf, ih hl, hr hf]

lemma syncAllChannels_spec (c : ClientB) (s : Settings) (now : Int) :
    syncAllChannels c s now =
      { channels_processed := s.tracked_channels.length
        channels_found := (s.tracked_channels.filter
            (fun n => isFoundName c s now n)).length
        channels_not_found := s.tracked_channels.filter
            (fun n => !(isFoundName c s now n))
        total_videos_collected := (((s.tracked_channels.map
            (syncChannel c s now)).filter
            (fun r => !(isNotFoundRes r))).map (fun r => r.videos_count)).sum
        lookback_hours := s.content_lookback_hours
        sync_results := s.tracked_channels.map (syncChannel c s now)
        started_at := now
        completed_at := now } := by
  unfold syncAllChannels
  cases hn : s.tracked_channels.isEmpty with
  | true =>
    have h0 : s.tracked_channels = [] := by simpa using hn
    simp [h0]
  | false => simp [hn, syncLoop_spec]

lemma syncChannel_notfound_count_zero (c : ClientB) (s : Settings) (now : Int)
    (name : String)
    (hclient : ∀ cid m, c.get_channel_metadata cid = Except.ok (some m) →
      m.id ≠ "")
    (h : isNotFoundRes (syncChannel c s now name) = true) :
    (syncChannel c s now name).videos_count = 0 := by
  rcases syncChannel_characterisation c s now name with hc | hc
  · exact hc.2.2.2
  · exfalso
    obtain ⟨sr, m, hsr, hm, _, hid⟩ := hc.2.2
    have hne : (syncChannel c s now name).channel.id ≠ "" := by
      rw [hid]; exact hclient sr.id m hm
    unfold isNotFoundRes at h
    rw [hc.1] at h
    simp [errTruthy] at h
    exact hne h

lemma filterMap_length_all_some {α β : Type} (f : α → Option β) (l : List α)
    (h : ∀ a ∈ l, (f a).isSome) : (l.filterMap f).length = l.length := by
  induction l with
  | nil => rfl
  | cons a l ih =>
    have ha := h a (List.mem_cons_self a l)
    cases hfa : f a with
    | none => rw [hfa] at ha; simp at ha
    | some b =>
      simp [List.filterMap_cons, hfa,
        ih (fun x hx => h x (List.mem_cons_of_mem a hx))]

/-! Concrete client behaviours used as counterexamples and witnesses. -/

/-- A client whose search raises `Exception("")` — an exception whose
`str` is the empty string. -/
def c1client : ClientB :=
  { search_channel := fun _ => .error ⟨"Exception", ""⟩
    get_channel_metadata := fun _ => .ok none
    get_recent_videos_with_metadata := fun _ _ => .ok [] }

def c1settings : Settings := ⟨["Alpha"], 24⟩

/-- C1 (counterexample): the claim says every per-channel failure carries
a NON-EMPTY error string; but `sync_channel` stores `error = str(e)`, and
a raised exception whose message is empty (Python's `str(Exception())` is
`""`) yields `error = some ""` — an empty string.  The batch still
completes and classifies the channel as not found (via the empty sentinel
id, since the empty error string is falsy). -/
theorem C1_counterexample :
    ((syncAllChannels c1client c1settings 0).sync_results.map
        (fun r => r.error)) = [some ""]
      ∧ (syncAllChannels c1client c1settings 0).channels_not_found
        = ["Alpha"] := by
  constructor <;> rfl

/-- A client raising `Exception("boom")` on searching "Alpha" and finding
nothing for other names. -/
def c1wclient : ClientB :=
  { search_channel := fun name =>
      if name == "Alpha" then .error ⟨"Exception", "boom"⟩ else .ok none
    get_channel_metadata := fun _ => .ok none
    get_recent_videos_with_metadata := fun _ _ => .ok [] }

def c1wsettings : Settings := ⟨["Alpha", "Beta"], 24⟩

/-- C1 (amended): for every client behaviour, `sync_all_channels` returns
(it is a total function of the embedding — nothing raises past
`sync_channel`'s boundary) with exactly one result per configured name in
order, so a batch in which one channel raises still yields results for
the other channels; each per-channel raised exception is converted into a
result whose error field is the exception's message string — non-None but
possibly empty. -/
theorem C1_amended (c : ClientB) (s : Settings) (now : Int) :
    (syncAllChannels c s now).sync_results
        = s.tracked_channels.map (syncChannel c s now)
      ∧ ∀ name e, syncChannelTry c s now name = Except.error e →
          (syncChannel c s now name).error = some e.msg := by
  constructor
  · rw [syncAllChannels_spec]
  · intro name e h
    unfold syncChannel
    rw [h]

/-- Witness for C1 (amended) at a concrete two-channel batch where the
first channel's resolution raises. -/
theorem C1_amended_witness :
    (syncAllChannels c1wclient c1wsettings 0).sync_results
        = c1wsettings.tracked_channels.map (syncChannel c1wclient c1wsettings 0)
      ∧ (syncChannel c1wclient c1wsettings 0 "Alpha").error = some "boom" :=
  ⟨(C1_amended c1wclient c1wsettings 0).1,
   (C1_amended c1wclient c1wsettings 0).2 "Alpha" ⟨"Exception", "boom"⟩
     (by rfl)⟩

/-- C4: `sync_results[i]` is the result of syncing `names[i]` (one result
per input name, in input order), and `channels_not_found` is exactly the
sublist of the input names classified as failing (error truthy or empty
channel id), in input order.  Strict sequentiality is inherent in the
embedding of the loop of channel_tracker.py 249–258, which processes each
name fully before the next. -/
theorem C4_order_preservation (c : ClientB) (s : Settings) (now : Int) :
    (syncAllChannels c s now).sync_results
        = s.tracked_channels.map (syncChannel c s now)
      ∧ (syncAllChannels c s now).channels_not_found
        = s.tracked_channels.filter
            (fun n => isNotFoundRes (syncChannel c s now n)) := by
  rw [syncAllChannels_spec]
  refine ⟨rfl, ?_⟩
  simp [isFoundName]

/-- A client whose metadata fetch succeeds but reports an EMPTY channel
id — a behaviour the §6 interface's types permit. -/
def c2client : ClientB :=
  { search_channel := fun _ => .ok (some ⟨"UC123", "Some Channel"⟩)
    get_channel_metadata := fun _ =>
      .ok (some { id := "", title := "Some Channel",
                  subscriber_count := some 5 })
    get_recent_videos_with_metadata := fun _ _ => .ok [] }

def c2settings : Settings := ⟨["Alpha"], 24⟩

/-- C2 (counterexample): when the client returns metadata whose id is the
empty string, `sync_channel` completes the success path, so the result has
`error = None` together with `channel.id = ""` and no videos — the
claimed equivalence `error is not None ⇔ (channel.id = "" ∧
videos_collected = [])` fails right-to-left. -/
theorem C2_counterexample :
    (syncChannel c2client c2settings 0 "Alpha").error = none
      ∧ (syncChannel c2client c2settings 0 "Alpha").channel.id = ""
      ∧ (syncChannel c2client c2settings 0 "Alpha").videos_collected = []
      ∧ ¬((syncChannel c2client c2settings 0 "Alpha").error ≠ none
            ↔ ((syncChannel c2client c2settings 0 "Alpha").channel.id = ""
               ∧ (syncChannel c2client c2settings 0 "Alpha").videos_collected
                 = [])) := by
  refine ⟨rfl, rfl, rfl, fun hiff => ?_⟩
  exact (hiff.mpr ⟨rfl, rfl⟩) rfl

/-- C2 (amended): the left-to-right direction holds for every client
behaviour — `error ≠ None` forces the empty-id sentinel channel and an
empty video list; the right-to-left consequence `error = None →
channel.id ≠ ""` additionally requires that the client never return a
metadata mapping with an empty id. -/
theorem C2_amended (c : ClientB) (s : Settings) (now : Int) (name : String) :
    ((syncChannel c s now name).error ≠ none →
        (syncChannel c s now name).channel.id = ""
          ∧ (syncChannel c s now name).videos_collected = [])
      ∧ ((∀ cid m, c.get_channel_metadata cid = Except.ok (some m) →
            m.id ≠ "") →
          (syncChannel c s now name).error = none →
          (syncChannel c s now name).channel.id ≠ "") := by
  rcases syncChannel_characterisation c s now name with h | h
  · refine ⟨fun _ => ⟨?_, h.2.2.1⟩, fun _ he => absurd he (by simp [h.1])⟩
    rw [h.2.1]; rfl
  · refine ⟨fun he => absurd h.1 he, fun hclient _ => ?_⟩
    obtain ⟨sr, m, hsr, hm, _, hid⟩ := h.2.2
    rw [hid]
    exact hclient sr.id m hm

/-- A client on which resolution fails (search finds nothing). -/
def c2wclient : ClientB :=
  { search_channel := fun _ => .ok none
    get_channel_metadata := fun _ => .ok none
    get_recent_videos_with_metadata := fun _ _ => .ok [] }

/-- The metadata returned by the successful witness client for C2. -/
def c2wmeta : Metadata :=
  { id := "UC1", title := "T", subscriber_count := some 7 }

/-- A client that resolves every name to a fixed channel with a non-empty
id. -/
def c2wclient2 : ClientB :=
  { search_channel := fun _ => .ok (some ⟨"UC1", "T"⟩)
    get_channel_metadata := fun _ => .ok (some c2wmeta)
    get_recent_videos_with_metadata := fun _ _ => .ok [] }

/-- Witness for C2 (amended): both directions discharged at concrete
clients — a failing sync yields the sentinel shape, and a succeeding sync
against a client with non-empty metadata ids yields a non-empty channel
id. -/
theorem C2_amended_witness :
    ((syncChannel c2wclient c2settings 0 "Alpha").channel.id = ""
        ∧ (syncChannel c2wclient c2settings 0 "Alpha").videos_collected = [])
      ∧ (syncChannel c2wclient2 c2settings 0 "Alpha").channel.id ≠ "" :=
  ⟨(C2_amended c2wclient c2settings 0 "Alpha").1 (by decide),
   (C2_amended c2wclient2 c2settings 0 "Alpha").2
     (fun cid m hm => by
       obtain rfl : c2wmeta = m := by simpa [c2wclient2] using hm
       simp [c2wmeta])
     (by rfl)⟩

/-- The single video returned by the C3 counterexample client. -/
def c3vid : VideoData :=
  { id := "v1", channel_id := "", title := "V", url := "u" }

/-- A client whose metadata carries an empty id but whose video listing
for that (empty) channel id returns one video. -/
def c3client : ClientB :=
  { search_channel := fun _ => .ok (some ⟨"UC1", "T"⟩)
    get_channel_metadata := fun _ =>
      .ok (some { id := "", title := "T", subscriber_count := some 5 })
    get_recent_videos_with_metadata := fun _ _ => .ok [c3vid] }

def c3settings : Settings := ⟨["Alpha"], 24⟩

/-- C3 (counterexample): a result with `error = None` but an empty channel
id is classified as not-found by the batch loop's test
(`result.error or not result.channel.id`), so its `videos_count` is not
accumulated into `total_videos_collected` — while the result, with its
videos, still sits in `sync_results`.  The claimed equality
`total_videos_collected = sum of videos_count over sync_results` fails:
the total is 0 but the sum is 1. -/
theorem C3_counterexample :
    (syncAllChannels c3client c3settings 0).total_videos_collected = 0
      ∧ ((syncAllChannels c3client c3settings 0).sync_results.map
          (fun r => r.videos_count)).sum = 1 := by
  constructor <;> rfl

/-- C3 (amended): for every client behaviour, every result satisfies
`videos_count = len(videos_collected)`, and
`channels_found + len(channels_not_found) = channels_processed =
len(sync_results)`; `total_videos_collected` equals the sum of
`videos_count` over the results classified as found, which coincides with
the sum over all of `sync_results` whenever the client never returns a
metadata mapping with an empty id. -/
theorem C3_amended (c : ClientB) (s : Settings) (now : Int) :
    (∀ r ∈ (syncAllChannels c s now).sync_results,
        r.videos_count = r.videos_collected.length)
      ∧ (syncAllChannels c s now).channels_found
          + (syncAllChannels c s now).channels_not_found.length
          = (syncAllChannels c s now).channels_processed
      ∧ (syncAllChannels c s now).channels_processed
          = (syncAllChannels c s now).sync_results.length
      ∧ (syncAllChannels c s now).total_videos_collected
          = (((syncAllChannels c s now).sync_results.filter
              (fun r => !(isNotFoundRes r))).map (fun r => r.videos_count)).sum
      ∧ ((∀ cid m, c.get_channel_metadata cid = Except.ok (some m) →
            m.id ≠ "") →
          (syncAllChannels c s now).total_videos_collected
            = ((syncAllChannels c s now).sync_results.map
                (fun r => r.videos_count)).sum) := by
  rw [syncAllChannels_spec]
  refine ⟨?_, ?_, ?_, rfl, ?_⟩
  · intro r hr
    simp only [List.mem_map] at hr
    obtain ⟨name, _, rfl⟩ := hr
    exact syncChannel_count c s now name
  · exact length_filter_split _ _
  · simp
  · intro hclient
    refine sum_counts_filter_found _ ?_
    intro r hr hnf
    simp only [List.mem_map] at hr
    obtain ⟨name, _, rfl⟩ := hr
    exact syncChannel_notfound_count_zero c s now name hclient hnf

/-- Witness for C3 (amended) at a concrete client: one found channel with
one video and one not-found channel. -/
def c3wvid : VideoData :=
  { id := "v1", channel_id := "UC1", title := "V", url := "u" }

/-- A client resolving "Alpha" (with one recent video) and failing
"Beta". -/
def c3wclient : ClientB :=
  { search_channel := fun name =>
      if name == "Alpha" then .ok (some ⟨"UC1", "T"⟩) else .ok none
    get_channel_metadata := fun _ => .ok (some c2wmeta)
    get_recent_videos_with_metadata := fun _ _ => .ok [c3wvid] }

def c3wsettings : Settings := ⟨["Alpha", "Beta"], 24⟩

/-- Witness for C3 (amended) evaluating the batch invariants at a
concrete mixed batch. -/
theorem C3_amended_witness :
    (syncAllChannels c3wclient c3wsettings 0).channels_found
        + (syncAllChannels c3wclient c3wsettings 0).channels_not_found.length
        = (syncAllChannels c3wclient c3wsettings 0).channels_processed
      ∧ (syncAllChannels c3wclient c3wsettings 0).total_videos_collected
        = ((syncAllChannels c3wclient c3wsettings 0).sync_results.map
            (fun r => r.videos_count)).sum :=
  ⟨(C3_amended c3wclient c3wsettings 0).2.1,
   (C3_amended c3wclient c3wsettings 0).2.2.2.2
     (fun cid m hm => by
       obtain rfl : c2wmeta = m := by simpa [c3wclient] using hm
       simp [c2wmeta])⟩

/-- C5: for the same channel name, a client run where the search returns
no match and a run where the metadata fetch raises produce the same
externally observable batch-level outcome: a non-None per-channel error,
the name in `channels_not_found`, no contribution to `channels_found` or
`total_videos_collected` — and `sync_all_channels` returns normally in
both runs (it is a total function of the embedding; the raised exception
never reaches the batch caller). -/
theorem C5_notfound_exception_equiv (cA cB : ClientB) (s : Settings)
    (now : Int) (name : String) (sr : SearchResult) (e : Exn)
    (hs : s.tracked_channels = [name])
    (h1 : cA.search_channel name = Except.ok none)
    (h2a : cB.search_channel name = Except.ok (some sr))
    (h2b : cB.get_channel_metadata sr.id = Except.error e) :
    (syncChannel cA s now name).error ≠ none
      ∧ (syncChannel cB s now name).error ≠ none
      ∧ (syncAllChannels cA s now).channels_not_found = [name]
      ∧ (syncAllChannels cB s now).channels_not_found = [name]
      ∧ (syncAllChannels cA s now).channels_found = 0
      ∧ (syncAllChannels cB s now).channels_found = 0
      ∧ (syncAllChannels cA s now).total_videos_collected = 0
      ∧ (syncAllChannels cB s now).total_videos_collected = 0 := by
  have rA : syncChannel cA s now name = notFoundSyncResult now name := by
    unfold syncChannel syncChannelTry searchAndResolveChannel
    simp [h1]
  have rB : syncChannel cB s now name =
      { channel := sentinelChannel name
        videos_collected := []
        videos_count := 0
        sync_started_at := now
        sync_completed_at := now
        error := some e.msg } := by
    unfold syncChannel syncChannelTry searchAndResolveChannel
    simp [h2a, h2b]
  have nfA : isNotFoundRes (syncChannel cA s now name) = true := by
    rw [rA]; rfl
  have nfB : isNotFoundRes (syncChannel cB s now name) = true := by
    rw [rB]
    simp [isNotFoundRes, sentinelChannel]
  refine ⟨by rw [rA]; simp [notFoundSyncResult], by rw [rB]; simp, ?_⟩
  rw [syncAllChannels_spec, syncAllChannels_spec]
  simp only [hs, List.filter_cons, List.filter_nil, List.map_cons,
    List.map_nil, isFoundName, nfA, nfB]
  simp

/-- Witness clients for C5: search finds nothing on client A; the
metadata fetch raises on client B. -/
def c5clientA : ClientB :=
  { search_channel := fun _ => .ok none
    get_channel_metadata := fun _ => .ok none
    get_recent_videos_with_metadata := fun _ _ => .ok [] }

def c5clientB : ClientB :=
  { search_channel := fun _ => .ok (some ⟨"UC5", "T"⟩)
    get_channel_metadata := fun _ => .error ⟨"HttpError", "quota exceeded"⟩
    get_recent_videos_with_metadata := fun _ _ => .ok [] }

def c5settings : Settings := ⟨["Gamma"], 24⟩

/-- Witness for C5 at a concrete pair of client runs. -/
theorem C5_witness :
    (syncAllChannels c5clientA c5settings 0).channels_not_found = ["Gamma"]
      ∧ (syncAllChannels c5clientB c5settings 0).channels_not_found
        = ["Gamma"]
      ∧ (syncAllChannels c5clientA c5settings 0).channels_found = 0
      ∧ (syncAllChannels c5clientB c5settings 0).channels_found = 0
      ∧ (syncAllChannels c5clientA c5settings 0).total_videos_collected = 0
      ∧ (syncAllChannels c5clientB c5settings 0).total_videos_collected
        = 0 := by
  have h := C5_notfound_exception_equiv c5clientA c5clientB c5settings 0
    "Gamma" ⟨"UC5", "T"⟩ ⟨"HttpError", "quota exceeded"⟩ rfl rfl rfl rfl
  exact ⟨h.2.2.1, h.2.2.2.1, h.2.2.2.2.1, h.2.2.2.2.2.1,
    h.2.2.2.2.2.2.1, h.2.2.2.2.2.2.2⟩

/-- C6: the recency filter of `get_recent_videos` has an inclusive lower
boundary: for any channel and lookback window, an upload whose published
instant is exactly `now − lookback_hours` is kept, and one published one
second before that cutoff is dropped. -/
theorem C6_lookback_boundary (api : YTApi) (now : Int) (hours : Nat)
    (channel_id u v1 t1 v2 t2 : String) (res : ChannelResource)
    (h1 : api.channels_list channel_id = Except.ok (some res))
    (h2 : res.uploadsPlaylist = some u)
    (h3 : api.playlist_items u = Except.ok
        [⟨TS.valid (now - (hours : Int) * 3600), v1, t1⟩,
         ⟨TS.valid (now - (hours : Int) * 3600 - 1), v2, t2⟩]) :
    getRecentVideos api now channel_id hours
      = Except.ok [⟨v1, t1, TS.valid (now - (hours : Int) * 3600)⟩] := by
  have hnle : ¬(now - (hours : Int) * 3600 ≤ now - (hours : Int) * 3600 - 1) :=
    by omega
  unfold getRecentVideos
  simp [h1, h2, h3, filterRecent, fromisoformat, hnle]

/-- Concrete API behaviour for the C6 witness: two uploads, one exactly
at the 24-hour cutoff, one a second earlier. -/
def c6res : ChannelResource :=
  { id := "UC6", snippet := { title := "Chan6" },
    uploadsPlaylist := some "UU6" }

def c6api : YTApi :=
  { search_list := fun _ => .ok none
    channels_list := fun _ => .ok (some c6res)
    playlist_items := fun _ => .ok
      [⟨TS.valid 913600, "vOnCutoff", "on the cutoff"⟩,
       ⟨TS.valid 913599, "vTooOld", "one second early"⟩]
    videos_list := fun _ => .ok none }

/-- Witness for C6: with `now = 1000000` and a 24-hour lookback the
cutoff is 913600; only the on-cutoff upload survives. -/
theorem C6_witness :
    getRecentVideos c6api 1000000 "UC6" 24
      = Except.ok [⟨"vOnCutoff", "on the cutoff", TS.valid 913600⟩] :=
  C6_lookback_boundary c6api 1000000 24 "UC6" "UU6" "vOnCutoff"
    "on the cutoff" "vTooOld" "one second early" c6res rfl rfl rfl

/-- C7: inside `get_recent_videos_with_metadata`, a failing per-video
metadata fetch (`get_video_metadata` returning `None`, which is also what
it does when an internal exception is caught) omits exactly that video:
the function still returns `ok` (no abort), the result is the metadata of
the remaining ids in order, nothing records an error, and when every
other fetch succeeds every other video is present. -/
theorem C7_partial_metadata_loss (api : YTApi) (now : Int)
    (channel_id : String) (hours : Nat) (recs : List RecVideo)
    (v : String) (lpre lpost : List String)
    (hre : getRecentVideos api now channel_id hours = Except.ok recs)
    (hids : recs.map (fun r => r.id) = lpre ++ v :: lpost)
    (hv : getVideoMetadata api v = none) :
    getRecentVideosWithMetadata api now channel_id hours
        = Except.ok (lpre.filterMap (getVideoMetadata api)
            ++ lpost.filterMap (getVideoMetadata api))
      ∧ ((∀ w ∈ lpre ++ lpost, (getVideoMetadata api w).isSome) →
          (lpre.filterMap (getVideoMetadata api)
            ++ lpost.filterMap (getVideoMetadata api)).length
            = lpre.length + lpost.length) := by
  constructor
  · unfold getRecentVideosWithMetadata
    rw [hre]
    simp only [hids]
    have hne : (lpre ++ v :: lpost).isEmpty = false := by
      cases lpre <;> rfl
    simp [hne, List.filterMap_append, List.filterMap_cons, hv]
  · intro hall
    rw [List.length_append,
      filterMap_length_all_some _ lpre
        (fun a ha => hall a (List.mem_append_left _ ha)),
      filterMap_length_all_some _ lpost
        (fun a ha => hall a (List.mem_append_right _ ha))]

/-- Concrete API behaviour for the C7 witness: three recent uploads; the
metadata fetch for the middle one fails (returns absent). -/
def c7res : ChannelResource :=
  { id := "UC7", snippet := { title := "Chan7" },
    uploadsPlaylist := some "UU7" }

def c7vres (i : String) : VideoResource :=
  { id := i, title := "T" ++ i, channelId := "UC7" }

def c7api : YTApi :=
  { search_list := fun _ => .ok none
    channels_list := fun _ => .ok (some c7res)
    playlist_items := fun _ => .ok
      [⟨TS.valid 950000, "va", "A"⟩,
       ⟨TS.valid 960000, "vb", "B"⟩,
       ⟨TS.valid 970000, "vc", "C"⟩]
    videos_list := fun i =>
      if i == "vb" then .ok none else .ok (some (c7vres i)) }

/-- Witness for C7: of three recent videos the middle one's metadata
fetch fails; exactly it is missing from the (ok) result and the other two
survive. -/
theorem C7_witness :
    getRecentVideosWithMetadata c7api 1000000 "UC7" 24
        = Except.ok (["va"].filterMap (getVideoMetadata c7api)
            ++ ["vc"].filterMap (getVideoMetadata c7api))
      ∧ (["va"].filterMap (getVideoMetadata c7api)
          ++ ["vc"].filterMap (getVideoMetadata c7api)).length = 1 + 1 :=
  ⟨(C7_partial_metadata_loss c7api 1000000 "UC7" 24
      [⟨"va", "A", TS.valid 950000⟩, ⟨"vb", "B", TS.valid 960000⟩,
       ⟨"vc", "C", TS.valid 970000⟩]
      "vb" ["va"] ["vc"] (by rfl) (by rfl) (by rfl)).1,
   (C7_partial_metadata_loss c7api 1000000 "UC7" 24
      [⟨"va", "A", TS.valid 950000⟩, ⟨"vb", "B", TS.valid 960000⟩,
       ⟨"vc", "C", TS.valid 970000⟩]
      "vb" ["va"] ["vc"] (by rfl) (by rfl) (by rfl)).2
     (by decide)⟩

/-- A channels().list response item whose statistics part supplies no
counts at all and whose snippet supplies no optional string fields. -/
def c8res : ChannelResource :=
  { id := "UC8", snippet := { title := "Chan8" } }

def c8api : YTApi :=
  { search_list := fun _ => .ok (some ⟨"UC8", "Chan8"⟩)
    channels_list := fun _ => .ok (some c8res)
    playlist_items := fun _ => .ok []
    videos_list := fun _ => .ok none }

/-- The Channel the resolver assembles from `c8api`'s response. -/
def c8chan : Channel := resolvedChannelOf 0 (channelMetadataOf c8res)

/-- C8 (counterexample): the claim says counts the external source does
not supply remain absent, never defaulted to zero; but
`get_channel_metadata` reads `int(statistics.get("subscriberCount", 0))`
(google_oauth.py 153–155), so a response with no subscriber count at all
yields a resolved Channel whose `subscriber_count` is 0, not absent. -/
theorem C8_counterexample :
    c8res.statistics.subscriberCount = none
      ∧ searchAndResolveChannel (clientOf c8api 0) 0 "Chan8"
        = Except.ok (some c8chan)
      ∧ c8chan.subscriber_count = some 0
      ∧ c8chan.video_count = some 0
      ∧ c8chan.view_count = some 0 := by
  refine ⟨rfl, rfl, rfl, rfl, rfl⟩

/-- C8 (amended): the resolved Channel copies the `.get`-read string
fields verbatim — absent stays absent, never the empty string — but the
subscriber/video/view counts are always populated, defaulting to 0 when
the platform's statistics omit them. -/
theorem C8_amended (api : YTApi) (now : Int) (name : String)
    (it : SearchItem) (res : ChannelResource)
    (h1 : api.search_list name = Except.ok (some it))
    (h2 : api.channels_list it.channelId = Except.ok (some res)) :
    searchAndResolveChannel (clientOf api now) now name
        = Except.ok (some (resolvedChannelOf now (channelMetadataOf res)))
      ∧ (resolvedChannelOf now (channelMetadataOf res)).subscriber_count
        = some (res.statistics.subscriberCount.getD 0)
      ∧ (resolvedChannelOf now (channelMetadataOf res)).video_count
        = some (res.statistics.videoCount.getD 0)
      ∧ (resolvedChannelOf now (channelMetadataOf res)).view_count
        = some (res.statistics.viewCount.getD 0)
      ∧ (resolvedChannelOf now (channelMetadataOf res)).description
        = res.snippet.description
      ∧ (resolvedChannelOf now (channelMetadataOf res)).thumbnail_url
        = res.snippet.thumbHigh
      ∧ (resolvedChannelOf now (channelMetadataOf res)).custom_url
        = res.snippet.customUrl
      ∧ (resolvedChannelOf now (channelMetadataOf res)).uploads_playlist_id
        = res.uploadsPlaylist := by
  refine ⟨?_, rfl, rfl, rfl, rfl, rfl, rfl, rfl⟩
  unfold searchAndResolveChannel clientOf searchChannel getChannelMetadata
  simp [h1, h2, resolvedChannelOf, channelMetadataOf]

/-- API behaviour for the C8 amended witness: a response with one count
present and the others absent. -/
def c8wres : ChannelResource :=
  { id := "UC8w", snippet := { title := "Chan8w", description := some "d" },
    statistics := { subscriberCount := some 1234 } }

def c8wapi : YTApi :=
  { search_list := fun _ => .ok (some ⟨"UC8w", "Chan8w"⟩)
    channels_list := fun _ => .ok (some c8wres)
    playlist_items := fun _ => .ok []
    videos_list := fun _ => .ok none }

/-- Witness for C8 (amended) at a concrete response: the supplied count
passes through, the missing ones become 0, the missing string fields stay
absent. -/
theorem C8_amended_witness :
    searchAndResolveChannel (clientOf c8wapi 0) 0 "Chan8w"
        = Except.ok (some (resolvedChannelOf 0 (channelMetadataOf c8wres)))
      ∧ (resolvedChannelOf 0 (channelMetadataOf c8wres)).subscriber_count
        = some 1234
      ∧ (resolvedChannelOf 0 (channelMetadataOf c8wres)).video_count
        = some 0
      ∧ (resolvedChannelOf 0 (channelMetadataOf c8wres)).thumbnail_url
        = none :=
  have h := C8_amended c8wapi 0 "Chan8w" ⟨"UC8w", "Chan8w"⟩ c8wres rfl rfl
  ⟨h.1, h.2.1, h.2.2.1, h.2.2.2.2.2.1⟩

/-- API behaviour for the C9 counterexample: the second playlist item's
publishedAt string is unparseable. -/
def c9res : ChannelResource :=
  { id := "UC9", snippet := { title := "Chan9" },
    uploadsPlaylist := some "UU9" }

def c9api : YTApi :=
  { search_list := fun _ => .ok (some ⟨"UC9", "Chan9"⟩)
    channels_list := fun _ => .ok (some c9res)
    playlist_items := fun _ => .ok
      [⟨TS.valid 999999, "v1", "Good"⟩,
       ⟨TS.invalid "not-a-date", "v2", "Bad"⟩]
    videos_list := fun _ => .ok none }

def c9settings : Settings := ⟨["Chan9"], 24⟩

/-- C9 (counterexample): the claim says an unparseable published-at
timestamp never causes an error anywhere in collection; but the recency
filter of `get_recent_videos` (google_oauth.py 249–253) parses every
playlist item's publishedAt with a bare `datetime.fromisoformat`, so one
unparseable timestamp raises `ValueError` out of the collection, and the
channel sync fails (error-populated result) instead of yielding videos. -/
theorem C9_counterexample :
    getRecentVideos c9api 1000000 "UC9" 24
        = Except.error ⟨"ValueError", "Invalid isoformat string: not-a-date"⟩
      ∧ (syncChannel (clientOf c9api 1000000) c9settings 1000000 "Chan9").error
        = some "Invalid isoformat string: not-a-date"
      ∧ (syncChannel (clientOf c9api 1000000) c9settings 1000000
          "Chan9").videos_collected = [] := by
  refine ⟨rfl, rfl, rfl⟩

/-- C9 (amended): a failure to parse the published-at timestamp while
BUILDING a record degrades to an absent `published_at` and never errors —
`_parse_datetime` maps unparseable input to `None`, and the
video-building stage of `fetch_recent_videos` is total over whatever
metadata the client returned; however an unparseable publishedAt reaching
the client's recency filter raises `ValueError` and fails that channel's
sync. -/
theorem C9_amended :
    (∀ bad : String, parseDatetime (some (TS.invalid bad)) = none)
      ∧ (∀ (now : Int) (vd : VideoData),
          (buildVideo now vd).published_at = parseDatetime vd.published_at)
      ∧ (∀ (c : ClientB) (s : Settings) (now : Int) (hours : Option Nat)
          (cid : String) (vds : List VideoData),
          c.get_recent_videos_with_metadata cid (lookbackHours s hours)
              = Except.ok vds →
          fetchRecentVideos c s now hours cid
            = Except.ok (vds.map (buildVideo now)))
      ∧ (∀ (api : YTApi) (now : Int) (cid : String) (hours : Nat)
          (res : ChannelResource) (u bad vid ti : String)
          (rest : List PlaylistItem),
          api.channels_list cid = Except.ok (some res) →
          res.uploadsPlaylist = some u →
          api.playlist_items u = Except.ok (⟨TS.invalid bad, vid, ti⟩ :: rest) →
          getRecentVideos api now cid hours
            = Except.error
                ⟨"ValueError", "Invalid isoformat string: " ++ bad⟩) := by
  refine ⟨fun _ => rfl, fun _ _ => rfl, ?_, ?_⟩
  · intro c s now hours cid vds h
    unfold fetchRecentVideos
    rw [h]
  · intro api now cid hours res u bad vid ti rest h1 h2 h3
    unfold getRecentVideos
    simp [h1, h2, h3, filterRecent, fromisoformat]

/-- A one-video client whose metadata mapping carries an unparseable
published-at string, for the C9 amended witness. -/
def c9wvid : VideoData :=
  { id := "v1", channel_id := "UC9", title := "V",
    published_at := some (TS.invalid "garbled"), url := "u" }

def c9wclient : ClientB :=
  { search_channel := fun _ => .ok (some ⟨"UC9", "T"⟩)
    get_channel_metadata := fun _ => .ok (some c2wmeta)
    get_recent_videos_with_metadata := fun _ _ => .ok [c9wvid] }

def c9wsettings : Settings := ⟨["Chan9"], 24⟩

/-- API behaviour whose uploads playlist has the unparseable item first,
for the C9 amended witness. -/
def c9wapi : YTApi :=
  { search_list := fun _ => .ok (some ⟨"UC9", "Chan9"⟩)
    channels_list := fun _ => .ok (some c9res)
    playlist_items := fun _ => .ok
      [⟨TS.invalid "zzz", "v2", "Bad"⟩, ⟨TS.valid 999999, "v1", "Good"⟩]
    videos_list := fun _ => .ok none }

/-- Witness for C9 (amended): building a Video from an unparseable
timestamp succeeds with `published_at` absent, and an unparseable
timestamp in a concrete playlist aborts `get_recent_videos` with
`ValueError`. -/
theorem C9_amended_witness :
    parseDatetime (some (TS.invalid "garbled")) = none
      ∧ (buildVideo 0 c9wvid).published_at
        = parseDatetime c9wvid.published_at
      ∧ fetchRecentVideos c9wclient c9wsettings 0 none "UC9"
        = Except.ok ([c9wvid].map (buildVideo 0))
      ∧ getRecentVideos c9wapi 1000000 "UC9" 24
        = Except.error
            ⟨"ValueError", "Invalid isoformat string: " ++ "zzz"⟩ :=
  ⟨C9_amended.1 "garbled",
   C9_amended.2.1 0 c9wvid,
   C9_amended.2.2.1 c9wclient c9wsettings 0 none "UC9" [c9wvid] rfl,
   C9_amended.2.2.2 c9wapi 1000000 "UC9" 24 c9res "UU9" "zzz" "v2"
     "Bad" [⟨TS.valid 999999, "v1", "Good"⟩] rfl rfl rfl⟩

/-- C10: when the §6 client interface returns search success and a
metadata mapping with no subscriber count (absent/None, which the
interface permits), `search_and_resolve_channel` raises `TypeError` from
the thousands-separator f-string format applied to `None`
(channel_tracker.py 99–102), so `sync_channel` returns a failure result
(error set, sentinel channel) even though resolution logically
succeeded: the resolution success path is only total when
`subscriber_count` is a number. -/
theorem C10_subscriber_format_typeerror (c : ClientB) (s : Settings)
    (now : Int) (name : String) (sr : SearchResult) (m : Metadata)
    (h1 : c.search_channel name = Except.ok (some sr))
    (h2 : c.get_channel_metadata sr.id = Except.ok (some m))
    (h3 : m.subscriber_count = none) :
    searchAndResolveChannel c now name = Except.error typeErrorNoneFormat
      ∧ (syncChannel c s now name).error = some typeErrorNoneFormat.msg
      ∧ (syncChannel c s now name).channel = sentinelChannel name := by
  have hres : searchAndResolveChannel c now name
      = Except.error typeErrorNoneFormat := by
    unfold searchAndResolveChannel
    simp [h1, h2, resolvedChannelOf, h3]
  refine ⟨hres, ?_, ?_⟩
  · unfold syncChannel syncChannelTry
    rw [hres]
  · unfold syncChannel syncChannelTry
    rw [hres]

/-- A client whose (otherwise successful) metadata mapping omits the
subscriber count, as the §6 interface permits. -/
def c10client : ClientB :=
  { search_channel := fun _ => .ok (some ⟨"UC10", "T"⟩)
    get_channel_metadata := fun _ =>
      .ok (some { id := "UC10", title := "T" })
    get_recent_videos_with_metadata := fun _ _ => .ok [] }

def c10settings : Settings := ⟨["Delta"], 24⟩

/-- Witness for C10 at a concrete client with an absent subscriber
count. -/
theorem C10_witness :
    searchAndResolveChannel c10client 0 "Delta"
        = Except.error typeErrorNoneFormat
      ∧ (syncChannel c10client c10settings 0 "Delta").error
        = some typeErrorNoneFormat.msg
      ∧ (syncChannel c10client c10settings 0 "Delta").channel
        = sentinelChannel "Delta" :=
  C10_subscriber_format_typeerror c10client c10settings 0 "Delta"
    ⟨"UC10", "T"⟩ { id := "UC10", title := "T" } rfl rfl rfl

end LtaiNews
